import Mathlib

/-!
# Verification of the mortgage-app amortization core

Shallow embedding of the loan computation core of the `mortgage-app`
repository: the pure calculator functions of `src/utils/calculator.js`
and the tax normalizer / loan orchestrator of `src/utils/loanProcessor.js`.

Modelling conventions:
* JavaScript numbers are embedded as exact rationals (`ℚ`); the numeric
  literal `0.78` becomes `78/100`, `rate/100/12` stays as written.
* A possibly-missing or non-numeric value (JS `undefined`, `null`, a
  non-numeric string, `NaN`, `±Infinity` — everything `Number(x)` turns
  into a non-finite number) is embedded as `none : Option ℚ`.
* The asynchronous injected tax lookup is embedded as a total function
  returning `Except String (Option ℚ)`: `Except.error` models a rejected
  promise or thrown error, `Except.ok r` a resolved result whose `rate`
  field converted by `Number` is `r` (`none` when missing/non-numeric).
* `years` is embedded as `ℕ`: the form sanitizer (`sanitizeLoanForm`)
  parses it with `parseInt` (`allowDecimals: false`), and the loop bound
  `years * 12` is used as an iteration count.
* All embedded functions are total Lean `def`s, which models the
  "never raises" behaviour of the source.
-/

namespace MortgageApp

/-- One row of the amortization schedule, as pushed by
`generateAmortizationSchedule` in `src/utils/calculator.js`. -/
structure ScheduleEntry where
  paymentNumber : ℕ
  paymentAmount : ℚ
  principalPayment : ℚ
  interestPayment : ℚ
  remainingBalance : ℚ
deriving Repr, DecidableEq

/-- The fields of `loanData` that `computeLoanDetails`
(`src/utils/loanProcessor.js`) reads, plus `propertyValue`, which the
loan form sends with every request (`LoanInputForm.vue` emits it) but
which the `computeLoanDetails` in the source never reads. -/
structure LoanRequest where
  principal : ℚ
  annualRate : ℚ
  years : ℕ
  stateCode : String
  includeSalesTax : Bool
  propertyValue : Option ℚ
deriving Repr, DecidableEq

/-- The `loanInfo` record returned by `computeLoanDetails` in the source:
exactly the eight fields built at the end of the function.  (It has no
`ltv`, `pmiRequired`, `propertyValue` or `downPayment` field.) -/
structure LoanInfo where
  principal : ℚ
  financedPrincipal : ℚ
  annualRate : ℚ
  years : ℕ
  stateCode : String
  includeSalesTax : Bool
  taxRate : ℚ
  taxAmount : ℚ
deriving Repr, DecidableEq

/-- The `results` record returned by `computeLoanDetails` in the source. -/
structure ResultsSummary where
  monthlyPayment : ℚ
  totalPaid : ℚ
  totalInterest : ℚ
deriving Repr, DecidableEq

/-- The full `{ loanInfo, results, schedule }` bundle returned by
`computeLoanDetails`. -/
structure LoanResult where
  loanInfo : LoanInfo
  results : ResultsSummary
  schedule : List ScheduleEntry
deriving Repr, DecidableEq

/-- `calculateMonthlyPayment(principal, annualRate, years)` from
`src/utils/calculator.js` lines 8–21. -/
def calculateMonthlyPayment (principal annualRate : ℚ) (years : ℕ) : ℚ :=
  let monthlyRate := annualRate / 100 / 12
  let numberOfPayments := years * 12
  if annualRate = 0 then
    principal / (numberOfPayments : ℚ)
  else
    principal * (monthlyRate * (1 + monthlyRate) ^ numberOfPayments) /
      ((1 + monthlyRate) ^ numberOfPayments - 1)

/-- `calculateTotalPaid(monthlyPayment, years)` from
`src/utils/calculator.js` lines 29–31. -/
def calculateTotalPaid (monthlyPayment : ℚ) (years : ℕ) : ℚ :=
  monthlyPayment * (years : ℚ) * 12

/-- `calculateTotalInterest(totalPaid, principal)` from
`src/utils/calculator.js` lines 39–41. -/
def calculateTotalInterest (totalPaid principal : ℚ) : ℚ :=
  totalPaid - principal

/-- The regular-period balance update of `generateAmortizationSchedule`:
`remainingBalance -= (monthlyPayment - interestPayment)` with
`interestPayment = remainingBalance * monthlyRate`. -/
def stepBalance (monthlyRate monthlyPayment bal : ℚ) : ℚ :=
  bal - (monthlyPayment - bal * monthlyRate)

/-- The loop body of `generateAmortizationSchedule`
(`src/utils/calculator.js` lines 57–89), recursing on the number of
periods still to emit.  With `k + 1` periods remaining out of
`numberOfPayments` total, the current payment number is
`numberOfPayments - k`; the final iteration (`i === numberOfPayments`,
i.e. one period remaining) takes the FINAL PAYMENT ADJUSTMENT branch.
The working balance passed to the recursive call is the unclamped
`newBalance`; only the stored `remainingBalance` field is clamped with
`Math.max(0, ·)`. -/
def scheduleAux (monthlyRate monthlyPayment : ℚ) (numberOfPayments : ℕ) :
    ℕ → ℚ → List ScheduleEntry
  | 0, _ => []
  | k + 1, remainingBalance =>
    let i := numberOfPayments - k
    let interestPayment := remainingBalance * monthlyRate
    if k = 0 then
      [⟨i, remainingBalance + interestPayment, remainingBalance, interestPayment, 0⟩]
    else
      let principalPayment := monthlyPayment - interestPayment
      let newBalance := remainingBalance - principalPayment
      ⟨i, monthlyPayment, principalPayment, interestPayment, max 0 newBalance⟩ ::
        scheduleAux monthlyRate monthlyPayment numberOfPayments k newBalance

/-- `generateAmortizationSchedule(principal, annualRate, years, monthlyPayment)`
from `src/utils/calculator.js` lines 51–92. -/
def generateAmortizationSchedule (principal annualRate : ℚ) (years : ℕ)
    (monthlyPayment : ℚ) : List ScheduleEntry :=
  scheduleAux (annualRate / 100 / 12) monthlyPayment (years * 12) (years * 12) principal

/-- `calculateLTV(loanAmount, propertyValue)` from
`src/utils/calculator.js` lines 135–138: the guard
`!propertyValue || propertyValue <= 0` collapses to `propertyValue ≤ 0`
on exact rationals. -/
def calculateLTV (loanAmount propertyValue : ℚ) : ℚ :=
  if propertyValue ≤ 0 then 0 else loanAmount / propertyValue

/-- `calculateMonthlyPMI(loanAmount, annualPMIRate)` from
`src/utils/calculator.js` lines 146–149. -/
def calculateMonthlyPMI (loanAmount annualPMIRate : ℚ) : ℚ :=
  if annualPMIRate ≤ 0 then 0 else loanAmount * annualPMIRate / 12

/-- `calculatePMIDropOff(schedule, propertyValue)` from
`src/utils/calculator.js` lines 157–167: `Array.prototype.find` on the
threshold predicate, then the payment number of the found entry. -/
def calculatePMIDropOff (schedule : List ScheduleEntry) (propertyValue : ℚ) :
    Option ℕ :=
  if propertyValue ≤ 0 then none
  else
    let targetBalance := propertyValue * (78 / 100)
    (schedule.find? fun payment => decide (payment.remainingBalance ≤ targetBalance)).map
      (fun payment => payment.paymentNumber)

/-- `normalizeTaxRate(rawRate, format)` from
`src/utils/loanProcessor.js` lines 22–52.  `rawRate : Option ℚ` is the
value of `Number(rawRate)` (`none` = non-finite); the `format` string is
compared against the literals exactly as in the source, any other string
falling through to auto-detection.  The JS default argument is
`format = 'auto'`. -/
def normalizeTaxRate (rawRate : Option ℚ) (format : String) : ℚ :=
  match rawRate with
  | none => 0
  | some rateNum =>
    if rateNum ≤ 0 then 0
    else if format = "decimal" then rateNum
    else if format = "percent" then rateNum / 100
    else if rateNum > 1 then rateNum / 100
    else rateNum

/-- The tax-enrichment block of `computeLoanDetails`
(`src/utils/loanProcessor.js` lines 61–73), returning the pair
`(taxRate, taxAmount)`.  Both are `0` unless
`includeSalesTax && stateCode` holds; inside the `try`, a resolved
lookup is normalized (`taxInfo?.rate` with the default auto format) and
`taxAmount = principal * taxRate`; the `catch` arm resets both to `0`.
(`typeof taxLookup === 'function'` is always true in the embedding.) -/
def computeTax (loanData : LoanRequest)
    (taxLookup : String → Except String (Option ℚ)) : ℚ × ℚ :=
  if loanData.includeSalesTax ∧ loanData.stateCode ≠ "" then
    match taxLookup loanData.stateCode with
    | Except.ok rawRate =>
      let taxRate := normalizeTaxRate rawRate "auto"
      (taxRate, loanData.principal * taxRate)
    | Except.error _ => (0, 0)
  else (0, 0)

/-- `computeLoanDetails(loanData, taxLookup)` from
`src/utils/loanProcessor.js` lines 54–99.  The single `await` of the
injected lookup is embedded by evaluating the `Except`-valued lookup;
the function is total, so no failure propagates to the caller. -/
def computeLoanDetails (loanData : LoanRequest)
    (taxLookup : String → Except String (Option ℚ)) : LoanResult :=
  let principal := loanData.principal
  let annualRate := loanData.annualRate
  let years := loanData.years
  let stateCode := loanData.stateCode
  let includeSalesTax := loanData.includeSalesTax
  let tax := computeTax loanData taxLookup
  let taxRate := tax.1
  let taxAmount := tax.2
  let financedPrincipal := principal + taxAmount
  let monthlyPayment := calculateMonthlyPayment financedPrincipal annualRate years
  let totalPaid := calculateTotalPaid monthlyPayment years
  let totalInterest := calculateTotalInterest totalPaid financedPrincipal
  let schedule := generateAmortizationSchedule financedPrincipal annualRate years monthlyPayment
  ⟨⟨principal, financedPrincipal, annualRate, years, stateCode, includeSalesTax,
      taxRate, taxAmount⟩,
    ⟨monthlyPayment, totalPaid, totalInterest⟩,
    schedule⟩

/-- Sum of the `paymentAmount` fields of a schedule (the spec's
`sum(schedule.paymentAmount)`). -/
def sumPaymentAmounts (schedule : List ScheduleEntry) : ℚ :=
  (schedule.map fun e => e.paymentAmount).sum

/-- Sum of the `principalPayment` fields of a schedule (the spec's
`sum(schedule.principalPayment)`). -/
def sumPrincipalPayments (schedule : List ScheduleEntry) : ℚ :=
  (schedule.map fun e => e.principalPayment).sum

/-! ## Structural lemmas about the schedule loop -/

theorem scheduleAux_length (r M : ℚ) (n : ℕ) :
    ∀ (k : ℕ) (bal : ℚ), (scheduleAux r M n k bal).length = k := by
  intro k
  induction k with
  | zero => intro bal; simp [scheduleAux]
  | succ k ih =>
    intro bal
    by_cases hk : k = 0
    · subst hk; simp [scheduleAux]
    · simp only [scheduleAux, hk, if_false, List.length_cons, ih]

theorem generateAmortizationSchedule_length (P rate M : ℚ) (years : ℕ) :
    (generateAmortizationSchedule P rate years M).length = years * 12 := by
  simp [generateAmortizationSchedule, scheduleAux_length]

/-- The sum of the `principalPayment` entries emitted with `k ≥ 1` periods
remaining telescopes to the balance carried in, for ANY monthly payment. -/
theorem scheduleAux_sumPrincipal (r M : ℚ) (n : ℕ) :
    ∀ (k : ℕ), 1 ≤ k → ∀ (bal : ℚ),
      sumPrincipalPayments (scheduleAux r M n k bal) = bal := by
  intro k
  induction k with
  | zero => intro h; omega
  | succ k ih =>
    intro _ bal
    by_cases hk : k = 0
    · subst hk
      simp [scheduleAux, sumPrincipalPayments]
    · have hk1 : 1 ≤ k := Nat.one_le_iff_ne_zero.mpr hk
      simp only [scheduleAux, hk, if_false, sumPrincipalPayments, List.map_cons,
        List.sum_cons]
      have := ih hk1 (bal - (M - bal * r))
      simp only [sumPrincipalPayments] at this
      rw [this]
      ring

theorem scheduleAux_cons_shape (r M : ℚ) (n : ℕ) (k : ℕ) (hk : 1 ≤ k) (bal : ℚ) :
    ∃ a t, scheduleAux r M n k bal = a :: t := by
  match k, hk with
  | 1, _ => exact ⟨_, _, rfl⟩
  | j + 2, _ => exact ⟨_, _, rfl⟩

/-- The last entry emitted with `k ≥ 1` periods remaining is the
final-payment-adjustment row: its principal portion is the working balance
carried into the last period (the `(k-1)`-fold iterate of the regular
balance update), its payment is that balance plus the period's interest,
and its stored balance is exactly `0`. -/
theorem scheduleAux_getLast (r M : ℚ) (n : ℕ) :
    ∀ (k : ℕ), 1 ≤ k → ∀ (bal : ℚ),
      (scheduleAux r M n k bal).getLast? =
        some ⟨n, (stepBalance r M)^[k-1] bal + ((stepBalance r M)^[k-1] bal) * r,
          (stepBalance r M)^[k-1] bal, ((stepBalance r M)^[k-1] bal) * r, 0⟩ := by
  intro k
  induction k with
  | zero => intro h; omega
  | succ k ih =>
    intro _ bal
    by_cases hk : k = 0
    · subst hk
      simp [scheduleAux, Function.iterate_zero]
    · have hk1 : 1 ≤ k := Nat.one_le_iff_ne_zero.mpr hk
      obtain ⟨a, t, hat⟩ := scheduleAux_cons_shape r M n k hk1 (bal - (M - bal * r))
      have hstep : bal - (M - bal * r) = stepBalance r M bal := rfl
      have hiter : (stepBalance r M)^[k-1] (stepBalance r M bal) =
          (stepBalance r M)^[k] bal := by
        conv_rhs => rw [show k = (k-1) + 1 by omega]
        rw [Function.iterate_succ_apply]
      simp only [scheduleAux, hk, if_false]
      rw [hat, List.getLast?_cons_cons, ← hat, ih hk1, hstep, hiter]
      simp

/-! ## The sum of the payment amounts -/

/-- Zero interest rate: every regular payment is `M` and the balance drops
by `M` each period, so the payment amounts sum back to the balance. -/
theorem scheduleAux_sumPayments_zeroRate (M : ℚ) (n : ℕ) :
    ∀ (k : ℕ), 1 ≤ k → ∀ (bal : ℚ),
      sumPaymentAmounts (scheduleAux 0 M n k bal) = bal := by
  intro k
  induction k with
  | zero => intro h; omega
  | succ k ih =>
    intro _ bal
    by_cases hk : k = 0
    · subst hk
      simp [scheduleAux, sumPaymentAmounts]
    · have hk1 : 1 ≤ k := Nat.one_le_iff_ne_zero.mpr hk
      simp only [scheduleAux, hk, if_false, sumPaymentAmounts, List.map_cons,
        List.sum_cons]
      have := ih hk1 (bal - (M - bal * 0))
      simp only [sumPaymentAmounts] at this
      rw [this]
      ring

/-- Nonzero rate: closed form for the sum of the payment amounts emitted
with `k ≥ 1` periods remaining, for any monthly payment `M` and balance. -/
theorem scheduleAux_sumPayments_closed (r M : ℚ) (hr : r ≠ 0) (n : ℕ) :
    ∀ (k : ℕ), 1 ≤ k → ∀ (bal : ℚ),
      sumPaymentAmounts (scheduleAux r M n k bal) =
        (k : ℚ) * M + (1 + r) ^ k * bal - M * ((1 + r) ^ k - 1) / r := by
  intro k
  induction k with
  | zero => intro h; omega
  | succ k ih =>
    intro _ bal
    by_cases hk : k = 0
    · subst hk
      simp only [scheduleAux, if_pos, sumPaymentAmounts, List.map_cons,
        List.map_nil, List.sum_cons, List.sum_nil, Nat.cast_one, pow_one,
        Nat.zero_add, Nat.cast_ofNat]
      field_simp
      ring
    · have hk1 : 1 ≤ k := Nat.one_le_iff_ne_zero.mpr hk
      simp only [scheduleAux, hk, if_false, sumPaymentAmounts, List.map_cons,
        List.sum_cons]
      have := ih hk1 (bal - (M - bal * r))
      simp only [sumPaymentAmounts] at this
      rw [this]
      push_cast
      field_simp
      ring

/-- For the monthly payment actually produced by `calculateMonthlyPayment`,
the schedule's payment amounts sum to exactly `calculateTotalPaid`
(`monthlyPayment * years * 12`): the forced final payment coincides, in
exact arithmetic, with the regular annuity payment. -/
theorem sumPayments_eq_totalPaid (FP rate : ℚ) (years : ℕ)
    (h0 : 0 ≤ rate) (hy : 1 ≤ years) :
    sumPaymentAmounts (generateAmortizationSchedule FP rate years
        (calculateMonthlyPayment FP rate years)) =
      calculateTotalPaid (calculateMonthlyPayment FP rate years) years := by
  have hn : 1 ≤ years * 12 := by omega
  have hncast : ((years * 12 : ℕ) : ℚ) = (years : ℚ) * 12 := by push_cast; ring
  rcases eq_or_lt_of_le h0 with hrate | hrate
  · have hrate0 : rate = 0 := hrate.symm
    subst hrate0
    have hM : calculateMonthlyPayment FP 0 years = FP / ((years * 12 : ℕ) : ℚ) := by
      simp [calculateMonthlyPayment]
    have hr0 : (0 : ℚ) / 100 / 12 = 0 := by norm_num
    rw [hM]
    unfold generateAmortizationSchedule
    rw [hr0, scheduleAux_sumPayments_zeroRate _ _ _ hn]
    have hne : ((years * 12 : ℕ) : ℚ) ≠ 0 := by
      push_cast
      positivity
    rw [calculateTotalPaid]
    field_simp
    ring
  · set r : ℚ := rate / 100 / 12 with hrdef
    have hrpos : 0 < r := by positivity
    have hrne : r ≠ 0 := ne_of_gt hrpos
    have hrate_ne : rate ≠ 0 := ne_of_gt hrate
    have hpow : 1 < (1 + r) ^ (years * 12) := by
      have h1r : 1 < 1 + r := by linarith
      exact (one_lt_pow_iff_of_nonneg (by linarith) (by omega)).mpr h1r
    have hD : (1 + r) ^ (years * 12) - 1 ≠ 0 := by linarith
    have hM : calculateMonthlyPayment FP rate years =
        FP * (r * (1 + r) ^ (years * 12)) / ((1 + r) ^ (years * 12) - 1) := by
      simp only [calculateMonthlyPayment, hrate_ne, if_false, ← hrdef]
    unfold generateAmortizationSchedule
    rw [← hrdef, scheduleAux_sumPayments_closed r _ hrne _ _ hn, hM,
      calculateTotalPaid, hncast]
    field_simp
    ring

/-! ## Claim theorems -/

/-- C5: `normalizeTaxRate` passes a positive finite rate through
unchanged under `format='decimal'`, divides by 100 under
`format='percent'`, and in `'auto'` mode divides by 100 exactly when the
rate exceeds 1, passing it through otherwise; `normalizeTaxRate(0.5,
'auto') = 0.5`, `normalizeTaxRate(NaN) = 0`, and every non-finite or
non-positive input yields 0.  (The embedding is a total function, which
is the "never raises" behaviour of the source.) -/
theorem normalizeTaxRate_spec (x y : ℚ) (fmt otherFmt : String)
    (hx : 0 < x) (hy : y ≤ 0) :
    normalizeTaxRate (some x) "decimal" = x ∧
    normalizeTaxRate (some x) "percent" = x / 100 ∧
    (1 < x → normalizeTaxRate (some x) "auto" = x / 100) ∧
    (x ≤ 1 → normalizeTaxRate (some x) "auto" = x) ∧
    normalizeTaxRate (some (1/2)) "auto" = 1/2 ∧
    normalizeTaxRate none otherFmt = 0 ∧
    normalizeTaxRate (some y) fmt = 0 := by
  have hnx : ¬ x ≤ 0 := not_le.mpr hx
  refine ⟨?_, ?_, ?_, ?_, ?_, rfl, ?_⟩
  · rw [normalizeTaxRate, if_neg hnx, if_pos rfl]
  · rw [normalizeTaxRate, if_neg hnx,
      if_neg (by decide : ¬ ("percent" : String) = "decimal"), if_pos rfl]
  · intro h1
    rw [normalizeTaxRate, if_neg hnx,
      if_neg (by decide : ¬ ("auto" : String) = "decimal"),
      if_neg (by decide : ¬ ("auto" : String) = "percent"), if_pos h1]
  · intro h1
    rw [normalizeTaxRate, if_neg hnx,
      if_neg (by decide : ¬ ("auto" : String) = "decimal"),
      if_neg (by decide : ¬ ("auto" : String) = "percent"),
      if_neg (not_lt.mpr h1)]
  · rw [normalizeTaxRate, if_neg (by norm_num),
      if_neg (by decide : ¬ ("auto" : String) = "decimal"),
      if_neg (by decide : ¬ ("auto" : String) = "percent"),
      if_neg (by norm_num : ¬ ((1:ℚ)/2 > 1))]
  · rw [normalizeTaxRate, if_pos hy]

/-- Witness for `normalizeTaxRate_spec` at `x = 2`, `y = -1`,
concrete format strings. -/
theorem normalizeTaxRate_spec_witness :
    normalizeTaxRate (some 2) "decimal" = 2 ∧
    normalizeTaxRate (some 2) "percent" = 2 / 100 ∧
    normalizeTaxRate (some 2) "auto" = 2 / 100 ∧
    normalizeTaxRate (some (1/2)) "auto" = 1/2 ∧
    normalizeTaxRate none "auto" = 0 ∧
    normalizeTaxRate (some (-1)) "decimal" = 0 := by
  obtain ⟨h1, h2, h3, _, h5, h6, h7⟩ :=
    normalizeTaxRate_spec 2 (-1) "decimal" "auto" (by norm_num) (by norm_num)
  exact ⟨h1, h2, h3 (by norm_num), h5, h6, h7⟩

/-- C6: `calculateMonthlyPayment` returns exactly `principal/(years*12)`
at zero annual rate, and otherwise exactly the annuity formula
`principal * (r*(1+r)^n) / ((1+r)^n - 1)` with `r = annualRate/100/12`
and `n = years*12`, in exact rational arithmetic. -/
theorem calculateMonthlyPayment_spec (P rate : ℚ) (years : ℕ) (_hy : 1 ≤ years) :
    calculateMonthlyPayment P 0 years = P / ((years : ℚ) * 12) ∧
    (0 < rate →
      calculateMonthlyPayment P rate years =
        P * ((rate / 100 / 12) * (1 + rate / 100 / 12) ^ (years * 12)) /
          ((1 + rate / 100 / 12) ^ (years * 12) - 1)) := by
  constructor
  · rw [calculateMonthlyPayment]
    simp only [if_pos rfl]
    push_cast
    ring_nf
  · intro h
    rw [calculateMonthlyPayment]
    simp only [ne_of_gt h, if_false]

/-- Witness for `calculateMonthlyPayment_spec` at `P = 1200`, `rate = 5`,
`years = 1`. -/
theorem calculateMonthlyPayment_spec_witness :
    calculateMonthlyPayment 1200 0 1 = 1200 / (((1 : ℕ) : ℚ) * 12) ∧
    calculateMonthlyPayment 1200 5 1 =
      1200 * (((5 : ℚ) / 100 / 12) * (1 + (5 : ℚ) / 100 / 12) ^ (1 * 12)) /
        ((1 + (5 : ℚ) / 100 / 12) ^ (1 * 12) - 1) :=
  ⟨(calculateMonthlyPayment_spec 1200 5 1 (by norm_num)).1,
    (calculateMonthlyPayment_spec 1200 5 1 (by norm_num)).2 (by norm_num)⟩

/-- C3 counterexample: `normalizeTaxRate` does NOT always land in the
half-open interval `[0,1)`.  In auto mode a raw rate of exactly `1`
passes through as `1`, a raw rate of `20000` becomes `200`, and decimal
mode passes `5` through as `5`. -/
theorem normalizeTaxRate_not_always_lt_one :
    normalizeTaxRate (some 1) "auto" = 1 ∧
    normalizeTaxRate (some 5) "decimal" = 5 ∧
    normalizeTaxRate (some 20000) "auto" = 200 := by
  refine ⟨?_, ?_, ?_⟩
  · rw [normalizeTaxRate, if_neg (by norm_num),
      if_neg (by decide : ¬ ("auto" : String) = "decimal"),
      if_neg (by decide : ¬ ("auto" : String) = "percent"),
      if_neg (by norm_num : ¬ ((1:ℚ) > 1))]
  · rw [normalizeTaxRate, if_neg (by norm_num), if_pos rfl]
  · rw [normalizeTaxRate, if_neg (by norm_num),
      if_neg (by decide : ¬ ("auto" : String) = "decimal"),
      if_neg (by decide : ¬ ("auto" : String) = "percent"),
      if_pos (by norm_num : (20000:ℚ) > 1)]
    norm_num

/-- C3 (amended): `normalizeTaxRate` is always nonnegative; in auto mode
its result lies in `[0,1)` provided the raw rate is below 100 and is not
exactly 1; and `computeLoanDetails` always satisfies
`taxAmount = principal * taxRate`. -/
theorem taxRate_nonneg_and_taxAmount (raw : Option ℚ) (fmt : String) (x : ℚ)
    (loanData : LoanRequest) (taxLookup : String → Except String (Option ℚ))
    (hx1 : x < 100) (hx2 : x ≠ 1) :
    0 ≤ normalizeTaxRate raw fmt ∧
    (0 ≤ normalizeTaxRate (some x) "auto" ∧ normalizeTaxRate (some x) "auto" < 1) ∧
    (computeLoanDetails loanData taxLookup).loanInfo.taxAmount =
      (computeLoanDetails loanData taxLookup).loanInfo.principal *
        (computeLoanDetails loanData taxLookup).loanInfo.taxRate := by
  refine ⟨?_, ?_, ?_⟩
  · match raw with
    | none => exact le_refl 0
    | some v =>
      rw [normalizeTaxRate]
      split_ifs with h1 h2 h3 h4
      · exact le_refl 0
      · linarith [not_le.mp h1]
      · linarith [not_le.mp h1]
      · linarith [not_le.mp h1]
      · linarith [not_le.mp h1]
  · rw [normalizeTaxRate]
    split_ifs with h1 h2 h3 h4
    · exact ⟨le_refl 0, by norm_num⟩
    · exact absurd h2 (by decide)
    · exact absurd h3 (by decide)
    · constructor
      · linarith [not_le.mp h1]
      · linarith
    · constructor
      · linarith [not_le.mp h1]
      · rcases lt_or_eq_of_le (not_lt.mp h4) with h | h
        · exact h
        · exact absurd h hx2
  · simp only [computeLoanDetails]
    show (computeTax loanData taxLookup).2 =
      loanData.principal * (computeTax loanData taxLookup).1
    rw [computeTax]
    split_ifs with h
    · match taxLookup loanData.stateCode with
      | Except.ok rawRate => rfl
      | Except.error _ => simp
    · simp

/-- Witness for `taxRate_nonneg_and_taxAmount` at concrete inputs. -/
theorem taxRate_nonneg_and_taxAmount_witness :
    0 ≤ normalizeTaxRate (some 5) "decimal" ∧
    (0 ≤ normalizeTaxRate (some (1/2)) "auto" ∧
      normalizeTaxRate (some (1/2)) "auto" < 1) ∧
    (computeLoanDetails ⟨200000, 5, 30, "WA", true, none⟩
        (fun _ => Except.ok (some (65/1000)))).loanInfo.taxAmount =
      (computeLoanDetails ⟨200000, 5, 30, "WA", true, none⟩
          (fun _ => Except.ok (some (65/1000)))).loanInfo.principal *
        (computeLoanDetails ⟨200000, 5, 30, "WA", true, none⟩
            (fun _ => Except.ok (some (65/1000)))).loanInfo.taxRate :=
  taxRate_nonneg_and_taxAmount (some 5) "decimal" (1/2)
    ⟨200000, 5, 30, "WA", true, none⟩ (fun _ => Except.ok (some (65/1000)))
    (by norm_num) (by norm_num)

/-- `List.find?` returns the element at the first index satisfying the
predicate when every earlier index fails it. -/
theorem find?_of_first {α : Type} (p : α → Bool) :
    ∀ (l : List α) (i : ℕ) (hi : i < l.length),
      (∀ j, (hj : j < i) → p (l.get ⟨j, by omega⟩) = false) →
      p (l.get ⟨i, hi⟩) = true →
      l.find? p = some (l.get ⟨i, hi⟩) := by
  intro l
  induction l with
  | nil => intro i hi; simp at hi
  | cons a t ih =>
    intro i hi hbefore hp
    match i with
    | 0 =>
      simp only [List.get] at hp
      rw [List.find?_cons_of_pos _ hp]
      rfl
    | j + 1 =>
      have ha : p a = false := hbefore 0 (Nat.succ_pos j)
      rw [List.find?_cons_of_neg _ (by simp [ha])]
      have hj : j < t.length := by
        simpa [List.length_cons, Nat.succ_lt_succ_iff] using hi
      have := ih j hj (fun m hm => hbefore (m + 1) (Nat.succ_lt_succ hm)) hp
      exact this

/-- C8: `calculatePMIDropOff` returns the `paymentNumber` of the first
schedule entry (in order) whose `remainingBalance` is at most
`propertyValue * 0.78`, and returns `null` when `propertyValue ≤ 0` or
when no entry reaches that threshold. -/
theorem calculatePMIDropOff_spec (schedule other : List ScheduleEntry)
    (pv pvNonpos : ℚ) (i : ℕ) (hpv : 0 < pv) (hnp : pvNonpos ≤ 0)
    (hi : i < schedule.length)
    (hbefore : ∀ j, (hj : j < i) →
      ¬ (schedule.get ⟨j, by omega⟩).remainingBalance ≤ pv * (78 / 100))
    (hhit : (schedule.get ⟨i, hi⟩).remainingBalance ≤ pv * (78 / 100))
    (hmiss : ∀ e ∈ other, ¬ e.remainingBalance ≤ pv * (78 / 100)) :
    calculatePMIDropOff schedule pv = some (schedule.get ⟨i, hi⟩).paymentNumber ∧
    calculatePMIDropOff other pv = none ∧
    calculatePMIDropOff schedule pvNonpos = none := by
  refine ⟨?_, ?_, ?_⟩
  · rw [calculatePMIDropOff, if_neg (not_le.mpr hpv)]
    have hfind := find?_of_first
      (fun payment => decide (payment.remainingBalance ≤ pv * (78 / 100)))
      schedule i hi
      (fun j hj => decide_eq_false (hbefore j hj))
      (decide_eq_true hhit)
    simp [hfind]
  · rw [calculatePMIDropOff, if_neg (not_le.mpr hpv)]
    have hfind : (other.find?
        fun payment => decide (payment.remainingBalance ≤ pv * (78 / 100))) = none := by
      rw [List.find?_eq_none]
      intro e he
      simpa using hmiss e he
    simp [hfind]
  · rw [calculatePMIDropOff, if_pos hnp]

/-- Witness for `calculatePMIDropOff_spec`: a three-entry schedule whose
second entry is the first at or below the 78% threshold. -/
theorem calculatePMIDropOff_spec_witness :
    calculatePMIDropOff
        [⟨1, 10, 1, 9, 95⟩, ⟨2, 10, 2, 8, 70⟩, ⟨3, 10, 3, 7, 40⟩] 100 = some 2 ∧
    calculatePMIDropOff [⟨1, 10, 1, 9, 95⟩] 100 = none ∧
    calculatePMIDropOff
        [⟨1, 10, 1, 9, 95⟩, ⟨2, 10, 2, 8, 70⟩, ⟨3, 10, 3, 7, 40⟩] 0 = none := by
  have h := calculatePMIDropOff_spec
    [⟨1, 10, 1, 9, 95⟩, ⟨2, 10, 2, 8, 70⟩, ⟨3, 10, 3, 7, 40⟩]
    [⟨1, 10, 1, 9, 95⟩] 100 0 1 (by norm_num) (by norm_num) (by norm_num)
    (by intro j hj
        interval_cases j
        · simp only [List.get]
          norm_num)
    (by simp only [List.get]; norm_num)
    (by intro e he
        simp only [List.mem_singleton] at he
        subst he
        norm_num)
  exact h

/-- C9: for ANY `monthlyPayment` argument — including values inconsistent
with the annuity formula — `generateAmortizationSchedule` returns exactly
`years*12` entries, the last entry's stored `remainingBalance` is exactly
`0`, and the `principalPayment` values sum exactly (in exact rational
arithmetic) to the principal: balance closure does not depend on the
payment being correctly computed. -/
theorem schedule_closure_any_payment (P rate M : ℚ) (years : ℕ)
    (_h0 : 0 ≤ rate) (hy : 1 ≤ years) :
    (generateAmortizationSchedule P rate years M).length = years * 12 ∧
    (∃ e, (generateAmortizationSchedule P rate years M).getLast? = some e ∧
      e.remainingBalance = 0) ∧
    sumPrincipalPayments (generateAmortizationSchedule P rate years M) = P := by
  have hn : 1 ≤ years * 12 := by omega
  refine ⟨generateAmortizationSchedule_length P rate M years, ?_, ?_⟩
  · exact ⟨_, scheduleAux_getLast _ _ _ _ hn P, rfl⟩
  · exact scheduleAux_sumPrincipal _ _ _ _ hn P

/-- Witness for `schedule_closure_any_payment` with a deliberately wrong
monthly payment (`M = 123`). -/
theorem schedule_closure_any_payment_witness :
    (generateAmortizationSchedule 1000 7 1 123).length = 1 * 12 ∧
    (∃ e, (generateAmortizationSchedule 1000 7 1 123).getLast? = some e ∧
      e.remainingBalance = 0) ∧
    sumPrincipalPayments (generateAmortizationSchedule 1000 7 1 123) = 1000 :=
  schedule_closure_any_payment 1000 7 123 1 (by norm_num) (by norm_num)

/-- C4: for valid inputs, the final entry of the schedule generated with
the computed monthly payment is the reconciliation row: its
`principalPayment` is the exact outstanding working balance carried into
period `n` (the `(n-1)`-fold iterate of the regular balance update), its
`paymentAmount` is that principal portion plus the period's interest, its
`remainingBalance` is exactly `0`, and the `principalPayment` values sum
to the financed principal — exactly in rational arithmetic, hence within
the claimed `0.01` tolerance. -/
theorem finalPeriod_reconciliation (P rate : ℚ) (years : ℕ)
    (_hP : 0 < P) (_h0 : 0 ≤ rate) (_h100 : rate ≤ 100)
    (hy : 1 ≤ years) (_h50 : years ≤ 50) :
    (generateAmortizationSchedule P rate years
        (calculateMonthlyPayment P rate years)).getLast? =
      some ⟨years * 12,
        (stepBalance (rate/100/12) (calculateMonthlyPayment P rate years))^[years*12 - 1] P
          + ((stepBalance (rate/100/12)
              (calculateMonthlyPayment P rate years))^[years*12 - 1] P) * (rate/100/12),
        (stepBalance (rate/100/12) (calculateMonthlyPayment P rate years))^[years*12 - 1] P,
        ((stepBalance (rate/100/12)
            (calculateMonthlyPayment P rate years))^[years*12 - 1] P) * (rate/100/12),
        0⟩ ∧
    sumPrincipalPayments (generateAmortizationSchedule P rate years
        (calculateMonthlyPayment P rate years)) = P ∧
    |sumPrincipalPayments (generateAmortizationSchedule P rate years
        (calculateMonthlyPayment P rate years)) - P| ≤ 1/100 := by
  have hn : 1 ≤ years * 12 := by omega
  have hsum : sumPrincipalPayments (generateAmortizationSchedule P rate years
      (calculateMonthlyPayment P rate years)) = P :=
    scheduleAux_sumPrincipal _ _ _ _ hn P
  refine ⟨scheduleAux_getLast _ _ _ _ hn P, hsum, ?_⟩
  rw [hsum]
  norm_num

/-- Witness for `finalPeriod_reconciliation` at `P = 100000`, `rate = 5`,
`years = 30`. -/
theorem finalPeriod_reconciliation_witness :
    (generateAmortizationSchedule 100000 5 30
        (calculateMonthlyPayment 100000 5 30)).getLast? =
      some ⟨30 * 12,
        (stepBalance (5/100/12) (calculateMonthlyPayment 100000 5 30))^[30*12 - 1] 100000
          + ((stepBalance (5/100/12)
              (calculateMonthlyPayment 100000 5 30))^[30*12 - 1] 100000) * (5/100/12),
        (stepBalance (5/100/12) (calculateMonthlyPayment 100000 5 30))^[30*12 - 1] 100000,
        ((stepBalance (5/100/12)
            (calculateMonthlyPayment 100000 5 30))^[30*12 - 1] 100000) * (5/100/12),
        0⟩ ∧
    sumPrincipalPayments (generateAmortizationSchedule 100000 5 30
        (calculateMonthlyPayment 100000 5 30)) = 100000 ∧
    |sumPrincipalPayments (generateAmortizationSchedule 100000 5 30
        (calculateMonthlyPayment 100000 5 30)) - 100000| ≤ 1/100 :=
  finalPeriod_reconciliation 100000 5 30 (by norm_num) (by norm_num)
    (by norm_num) (by norm_num) (by norm_num)

/-- C1: for every loan request, the `totalPaid` returned by
`computeLoanDetails` equals the sum of `paymentAmount` over all entries
of the generated schedule, and `totalInterest` equals `totalPaid` minus
`financedPrincipal` — in exact rational arithmetic. -/
theorem totalPaid_eq_sum_schedule (loanData : LoanRequest)
    (taxLookup : String → Except String (Option ℚ))
    (h0 : 0 ≤ loanData.annualRate) (hy : 1 ≤ loanData.years) :
    (computeLoanDetails loanData taxLookup).results.totalPaid =
      sumPaymentAmounts (computeLoanDetails loanData taxLookup).schedule ∧
    (computeLoanDetails loanData taxLookup).results.totalInterest =
      (computeLoanDetails loanData taxLookup).results.totalPaid -
        (computeLoanDetails loanData taxLookup).loanInfo.financedPrincipal := by
  constructor
  · show calculateTotalPaid _ _ = sumPaymentAmounts (generateAmortizationSchedule _ _ _ _)
    exact (sumPayments_eq_totalPaid _ _ _ h0 hy).symm
  · rfl

/-- Witness for `totalPaid_eq_sum_schedule` at a concrete request whose
tax lookup rejects. -/
theorem totalPaid_eq_sum_schedule_witness :
    (computeLoanDetails ⟨200000, 5, 30, "CA", true, none⟩
        (fun _ => Except.error "timeout")).results.totalPaid =
      sumPaymentAmounts (computeLoanDetails ⟨200000, 5, 30, "CA", true, none⟩
        (fun _ => Except.error "timeout")).schedule ∧
    (computeLoanDetails ⟨200000, 5, 30, "CA", true, none⟩
        (fun _ => Except.error "timeout")).results.totalInterest =
      (computeLoanDetails ⟨200000, 5, 30, "CA", true, none⟩
          (fun _ => Except.error "timeout")).results.totalPaid -
        (computeLoanDetails ⟨200000, 5, 30, "CA", true, none⟩
            (fun _ => Except.error "timeout")).loanInfo.financedPrincipal :=
  totalPaid_eq_sum_schedule ⟨200000, 5, 30, "CA", true, none⟩
    (fun _ => Except.error "timeout") (by norm_num) (by norm_num)

/-- C7: when the injected tax lookup rejects or throws, the orchestrator
still returns normally (the embedding is total) with `taxRate = 0`,
`taxAmount = 0`, and `financedPrincipal` equal to the principal. -/
theorem taxLookup_failure_fallback (loanData : LoanRequest)
    (taxLookup : String → Except String (Option ℚ)) (msg : String)
    (hinc : loanData.includeSalesTax = true) (hsc : loanData.stateCode ≠ "")
    (hfail : taxLookup loanData.stateCode = Except.error msg) :
    (computeLoanDetails loanData taxLookup).loanInfo.taxRate = 0 ∧
    (computeLoanDetails loanData taxLookup).loanInfo.taxAmount = 0 ∧
    (computeLoanDetails loanData taxLookup).loanInfo.financedPrincipal =
      loanData.principal := by
  have htax : computeTax loanData taxLookup = (0, 0) := by
    rw [computeTax, if_pos ⟨hinc, hsc⟩, hfail]
  refine ⟨?_, ?_, ?_⟩
  · show (computeTax loanData taxLookup).1 = 0
    rw [htax]
  · show (computeTax loanData taxLookup).2 = 0
    rw [htax]
  · show loanData.principal + (computeTax loanData taxLookup).2 = loanData.principal
    rw [htax]
    ring

/-- Witness for `taxLookup_failure_fallback`: a request with sales tax
enabled for California and a rejecting lookup. -/
theorem taxLookup_failure_fallback_witness :
    (computeLoanDetails ⟨200000, 5, 30, "CA", true, none⟩
        (fun _ => Except.error "fail")).loanInfo.taxRate = 0 ∧
    (computeLoanDetails ⟨200000, 5, 30, "CA", true, none⟩
        (fun _ => Except.error "fail")).loanInfo.taxAmount = 0 ∧
    (computeLoanDetails ⟨200000, 5, 30, "CA", true, none⟩
        (fun _ => Except.error "fail")).loanInfo.financedPrincipal = 200000 :=
  taxLookup_failure_fallback ⟨200000, 5, 30, "CA", true, none⟩
    (fun _ => Except.error "fail") "fail" rfl (by decide) rfl

/-- C10: when the lookup resolves but its `rate` field is missing or
non-numeric (`Number(·)` is `NaN`, embedded as `none`), the orchestrator
sets `taxRate = 0` and `taxAmount = 0`, so the bad rate reaches neither
`financedPrincipal` nor the payment computation, which runs on the bare
principal. -/
theorem taxLookup_badRate_fallback (loanData : LoanRequest)
    (taxLookup : String → Except String (Option ℚ))
    (hinc : loanData.includeSalesTax = true) (hsc : loanData.stateCode ≠ "")
    (hok : taxLookup loanData.stateCode = Except.ok none) :
    (computeLoanDetails loanData taxLookup).loanInfo.taxRate = 0 ∧
    (computeLoanDetails loanData taxLookup).loanInfo.taxAmount = 0 ∧
    (computeLoanDetails loanData taxLookup).loanInfo.financedPrincipal =
      loanData.principal ∧
    (computeLoanDetails loanData taxLookup).results.monthlyPayment =
      calculateMonthlyPayment loanData.principal loanData.annualRate
        loanData.years := by
  have htax : computeTax loanData taxLookup = (0, 0) := by
    rw [computeTax, if_pos ⟨hinc, hsc⟩, hok]
    show (normalizeTaxRate none "auto", loanData.principal * normalizeTaxRate none "auto") = (0, 0)
    rw [normalizeTaxRate]
    norm_num
  have hfp : (computeLoanDetails loanData taxLookup).loanInfo.financedPrincipal =
      loanData.principal := by
    show loanData.principal + (computeTax loanData taxLookup).2 = loanData.principal
    rw [htax]
    ring
  refine ⟨?_, ?_, hfp, ?_⟩
  · show (computeTax loanData taxLookup).1 = 0
    rw [htax]
  · show (computeTax loanData taxLookup).2 = 0
    rw [htax]
  · show calculateMonthlyPayment (loanData.principal + (computeTax loanData taxLookup).2)
        loanData.annualRate loanData.years = _
    rw [htax]
    norm_num

/-- Witness for `taxLookup_badRate_fallback`: a lookup that resolves with
a missing `rate` field. -/
theorem taxLookup_badRate_fallback_witness :
    (computeLoanDetails ⟨300000, 6, 15, "TX", true, none⟩
        (fun _ => Except.ok none)).loanInfo.taxRate = 0 ∧
    (computeLoanDetails ⟨300000, 6, 15, "TX", true, none⟩
        (fun _ => Except.ok none)).loanInfo.taxAmount = 0 ∧
    (computeLoanDetails ⟨300000, 6, 15, "TX", true, none⟩
        (fun _ => Except.ok none)).loanInfo.financedPrincipal = 300000 ∧
    (computeLoanDetails ⟨300000, 6, 15, "TX", true, none⟩
        (fun _ => Except.ok none)).results.monthlyPayment =
      calculateMonthlyPayment 300000 6 15 :=
  taxLookup_badRate_fallback ⟨300000, 6, 15, "TX", true, none⟩
    (fun _ => Except.ok none) rfl (by decide) rfl

/-- C2 (code evaluation at the failing input): at the PMI-integration
test's request — principal 450000, property value 500000, rate 6%, 30
years — the `loanInfo` returned by the source's `computeLoanDetails` is
exactly the eight-field record below.  It carries no `ltv`,
`pmiRequired`, `propertyValue` or `downPayment` field, and the request's
`propertyValue` is never read; `calculateLTV` applied as the claim (and
the repository's own test `loanProcessor.spec.js`) demands would give
`ltv = 9/10 > 0.80`, i.e. `pmiRequired = true`. -/
theorem computeLoanDetails_loanInfo_has_no_ltv :
    (computeLoanDetails ⟨450000, 6, 30, "", false, some 500000⟩
        (fun _ => Except.error "unused")).loanInfo =
      ⟨450000, 450000, 6, 30, "", false, 0, 0⟩ ∧
    calculateLTV 450000 500000 = 9/10 ∧
    ((9:ℚ)/10 > 80/100) = True := by
  refine ⟨?_, ?_, ?_⟩
  · simp [computeLoanDetails, computeTax]
  · rw [calculateLTV, if_neg (by norm_num)]
    norm_num
  · norm_num

end MortgageApp
